import Mathlib

/-!
Shallow embedding of the spec reconciliation pipeline of the momorph CLI
(package `internal/upload` plus the orchestrator `cmd/upload_specs.go`).

Strings are Lean `String`s; Go's `len` on a string (byte length) is
`String.utf8ByteSize`.  Go `*int` / `*bool` pointer fields become
`Option Int` / `Option Bool`.  Go's `nil` slice of violations is the
empty list.  Maps keyed by `node_link_id` become lookup functions built
by left-to-right insertion (later entries overwrite earlier ones), the
same last-write-wins behaviour as a Go map fill loop.
-/

namespace Momorph

/-- Design item status constants (internal/upload/types.go). -/
def DesignItemStatusDeleted : String := "deleted"

def DesignItemStatusNone : String := "none"

def DesignItemStatusDraft : String := "draft"

def DesignItemStatusCompleted : String := "completed"

/-- `Spec` record parsed from one CSV row (internal/upload/types.go). -/
structure Spec where
  no : String := ""
  designItemName : String := ""
  name : String := ""
  nameTrans : String := ""
  nodeLinkID : String := ""
  sectionLinkID : String := ""
  type : String := ""
  otherType : String := ""
  buttonType : String := ""
  dataType : String := ""
  required : Option Bool := none
  format : String := ""
  minLength : Option Int := none
  maxLength : Option Int := none
  defaultValue : String := ""
  validationNote : String := ""
  action : String := ""
  linkedFrameID : String := ""
  navigationNote : String := ""
  tableName : String := ""
  columnName : String := ""
  databaseNote : String := ""
  description : String := ""
  isReviewed : Option Bool := none
  deriving DecidableEq, Repr

/-- Length constraints matching the SDK UpdateSpecDto (part_007). -/
def MaxNameLength : Nat := 255

def MaxNameTransLength : Nat := 255

def MaxButtonTypeLength : Nat := 255

def MaxOtherTypeLength : Nat := 255

def MaxFormatLength : Nat := 255

def MaxDefaultValueLength : Nat := 255

def MaxTableNameLength : Nat := 255

def MaxColumnNameLength : Nat := 255

def MaxNavigationNoteLength : Nat := 2000

def MaxValidationNoteLength : Nat := 2000

def MaxDatabaseNoteLength : Nat := 2000

def MaxDescriptionLength : Nat := 10000

/-- Accepted types for validation (part_007). -/
def AcceptedOptionTypes : List String :=
  ["button", "checkbox", "radio_button", "dropdown",
   "file_or_image", "video", "date_picker", "pagination",
   "popup_dialog", "label", "text_form", "textarea", "others"]

def AcceptedDataTypes : List String :=
  ["array", "boolean", "byte", "character", "string",
   "date", "integer", "long", "short", "float", "double", "nothing"]

def AcceptedButtonTypes : List String := ["icon_text", "toggle", "text_link", "others"]

def AcceptedActionTypes : List String := ["on_click", "while_hovering", "key_gamepad", "after_delay"]

/-- Types requiring specific validations (part_007). -/
def TypesRequiringDataType : List String := ["textarea", "text_form", "others"]

def TypesRequiringLength : List String :=
  ["textarea", "text_form", "file_or_image", "video", "others"]

def TypesWithoutValidation : List String := ["button", "label"]

/-- `contains` from part_007: linear scan of a string slice. -/
def contains (slice : List String) (item : String) : Bool :=
  slice.any (fun s => s == item)

/-- Rendering of Go `fmt.Sprintf("%v", slice)` for a `[]string`. -/
def goSliceString (xs : List String) : String :=
  "[" ++ String.intercalate " " xs ++ "]"

/-- Violation message texts produced by `ValidateSpecContent`. -/
def typeRequiredMsg : String := "type is required when status is completed"

def typeEnumMsg : String := "type must be one of: " ++ goSliceString AcceptedOptionTypes

def nameLenMsg : String :=
  "name must not exceed " ++ toString MaxNameLength ++ " characters"

def nameTransLenMsg : String :=
  "nameTrans must not exceed " ++ toString MaxNameTransLength ++ " characters"

def buttonTypeEnumMsg : String :=
  "buttonType must be one of: " ++ goSliceString AcceptedButtonTypes

def otherTypeLenMsg : String :=
  "otherType must not exceed " ++ toString MaxOtherTypeLength ++ " characters"

def actionEnumMsg : String :=
  "action must be one of: " ++ goSliceString AcceptedActionTypes

def navigationNoteLenMsg : String :=
  "navigationNote must not exceed " ++ toString MaxNavigationNoteLength ++ " characters"

def dataTypeEnumMsg : String :=
  "dataType must be one of: " ++ goSliceString AcceptedDataTypes

def formatLenMsg : String :=
  "format must not exceed " ++ toString MaxFormatLength ++ " characters"

def minLengthNegMsg : String := "minLength must be greater than or equal to 0"

def maxLengthNegMsg : String := "maxLength must be greater than or equal to 0"

def crossLengthMsg : String := "minLength must be less than maxLength"

def defaultValueLenMsg : String :=
  "defaultValue must not exceed " ++ toString MaxDefaultValueLength ++ " characters"

def validationNoteLenMsg : String :=
  "validationNote must not exceed " ++ toString MaxValidationNoteLength ++ " characters"

def tableNameLenMsg : String :=
  "tableName must not exceed " ++ toString MaxTableNameLength ++ " characters"

def columnNameLenMsg : String :=
  "columnName must not exceed " ++ toString MaxColumnNameLength ++ " characters"

def databaseNoteLenMsg : String :=
  "databaseNote must not exceed " ++ toString MaxDatabaseNoteLength ++ " characters"

def descriptionLenMsg : String :=
  "description must not exceed " ++ toString MaxDescriptionLength ++ " characters"

/-- TYPE VALIDATION section of `ValidateSpecContent`. -/
def typeErrors (spec : Spec) (isCompleted : Bool) : List String :=
  if isCompleted || spec.type != "" then
    if spec.type == "" then [typeRequiredMsg]
    else if !(contains AcceptedOptionTypes spec.type) then [typeEnumMsg]
    else []
  else []

/-- name validation. -/
def nameErrors (spec : Spec) (isCompleted : Bool) : List String :=
  if (isCompleted || spec.name != "") && decide (spec.name.utf8ByteSize > MaxNameLength) then
    [nameLenMsg]
  else []

/-- nameTrans validation. -/
def nameTransErrors (spec : Spec) (isCompleted : Bool) : List String :=
  if (isCompleted || spec.nameTrans != "") &&
      decide (spec.nameTrans.utf8ByteSize > MaxNameTransLength) then
    [nameTransLenMsg]
  else []

/-- buttonType validation: block entered when type is button and status
completed, or when buttonType is present; the inner check only fires when
buttonType is present and outside the accepted enumeration. -/
def buttonTypeErrors (spec : Spec) (isCompleted : Bool) : List String :=
  if (spec.type == "button" && isCompleted) || spec.buttonType != "" then
    if spec.buttonType != "" && !(contains AcceptedButtonTypes spec.buttonType) then
      [buttonTypeEnumMsg]
    else []
  else []

/-- otherType validation. -/
def otherTypeErrors (spec : Spec) (isCompleted : Bool) : List String :=
  if (spec.type == "others" && isCompleted) || spec.otherType != "" then
    if decide (spec.otherType.utf8ByteSize > MaxOtherTypeLength) then [otherTypeLenMsg]
    else []
  else []

/-- action validation. -/
def actionErrors (spec : Spec) : List String :=
  if spec.action != "" then
    if !(contains AcceptedActionTypes spec.action) then [actionEnumMsg] else []
  else []

/-- navigationNote validation. -/
def navigationNoteErrors (spec : Spec) (isCompleted : Bool) : List String :=
  if (spec.action != "" && isCompleted) || spec.navigationNote != "" then
    if decide (spec.navigationNote.utf8ByteSize > MaxNavigationNoteLength) then
      [navigationNoteLenMsg]
    else []
  else []

/-- dataType validation. -/
def dataTypeErrors (spec : Spec) (isCompleted : Bool) : List String :=
  if (contains TypesRequiringDataType spec.type && isCompleted) || spec.dataType != "" then
    if spec.dataType != "" && !(contains AcceptedDataTypes spec.dataType) then
      [dataTypeEnumMsg]
    else []
  else []

/-- format validation. -/
def formatErrors (spec : Spec) (isCompleted : Bool) : List String :=
  if (!(contains TypesWithoutValidation spec.type) && isCompleted) || spec.format != "" then
    if decide (spec.format.utf8ByteSize > MaxFormatLength) then [formatLenMsg] else []
  else []

/-- minLength sign validation. -/
def minLengthErrors (spec : Spec) (requiresLength : Bool) : List String :=
  if requiresLength || spec.minLength.isSome then
    match spec.minLength with
    | some v => if decide (v < 0) then [minLengthNegMsg] else []
    | none => []
  else []

/-- maxLength sign validation. -/
def maxLengthErrors (spec : Spec) (requiresLength : Bool) : List String :=
  if requiresLength || spec.maxLength.isSome then
    match spec.maxLength with
    | some v => if decide (v < 0) then [maxLengthNegMsg] else []
    | none => []
  else []

/-- Cross-field validation: fires when both bounds are present and
`minLength >= maxLength`. -/
def crossLengthErrors (spec : Spec) : List String :=
  match spec.minLength, spec.maxLength with
  | some lo, some hi => if decide (lo ≥ hi) then [crossLengthMsg] else []
  | _, _ => []

/-- defaultValue validation. -/
def defaultValueErrors (spec : Spec) (isCompleted : Bool) : List String :=
  if (isCompleted || spec.defaultValue != "") &&
      decide (spec.defaultValue.utf8ByteSize > MaxDefaultValueLength) then
    [defaultValueLenMsg]
  else []

/-- validationNote validation. -/
def validationNoteErrors (spec : Spec) (isCompleted : Bool) : List String :=
  if (isCompleted || spec.validationNote != "") &&
      decide (spec.validationNote.utf8ByteSize > MaxValidationNoteLength) then
    [validationNoteLenMsg]
  else []

/-- tableName validation. -/
def tableNameErrors (spec : Spec) (requiresDatabase : Bool) : List String :=
  if (requiresDatabase || spec.tableName != "") &&
      decide (spec.tableName.utf8ByteSize > MaxTableNameLength) then
    [tableNameLenMsg]
  else []

/-- columnName validation. -/
def columnNameErrors (spec : Spec) (requiresDatabase : Bool) : List String :=
  if (requiresDatabase || spec.columnName != "") &&
      decide (spec.columnName.utf8ByteSize > MaxColumnNameLength) then
    [columnNameLenMsg]
  else []

/-- databaseNote validation. -/
def databaseNoteErrors (spec : Spec) (requiresDatabase : Bool) : List String :=
  if (requiresDatabase || spec.databaseNote != "") &&
      decide (spec.databaseNote.utf8ByteSize > MaxDatabaseNoteLength) then
    [databaseNoteLenMsg]
  else []

/-- description validation. -/
def descriptionErrors (spec : Spec) (isCompleted : Bool) : List String :=
  if (isCompleted || spec.description != "") &&
      decide (spec.description.utf8ByteSize > MaxDescriptionLength) then
    [descriptionLenMsg]
  else []

/-- `ValidateSpecContent` (part_007): validates a spec against a target
status, concatenating the per-field violation lists in source order. -/
def ValidateSpecContent (spec : Spec) (status : String) : List String :=
  let isCompleted := status == DesignItemStatusCompleted
  let requiresLength := contains TypesRequiringLength spec.type && isCompleted
  let requiresDatabase := isCompleted && spec.type != "button"
  typeErrors spec isCompleted ++
  nameErrors spec isCompleted ++
  nameTransErrors spec isCompleted ++
  buttonTypeErrors spec isCompleted ++
  otherTypeErrors spec isCompleted ++
  actionErrors spec ++
  navigationNoteErrors spec isCompleted ++
  dataTypeErrors spec isCompleted ++
  formatErrors spec isCompleted ++
  minLengthErrors spec requiresLength ++
  maxLengthErrors spec requiresLength ++
  crossLengthErrors spec ++
  defaultValueErrors spec isCompleted ++
  validationNoteErrors spec isCompleted ++
  tableNameErrors spec requiresDatabase ++
  columnNameErrors spec requiresDatabase ++
  databaseNoteErrors spec requiresDatabase ++
  descriptionErrors spec isCompleted

/-- `IsSpecContentEmpty` (part_007): true when all content fields are
empty.  The Go version also returns true for a nil pointer; every call
site in the pipeline passes the address of a live record, so the
embedding takes the record directly. -/
def IsSpecContentEmpty (spec : Spec) : Bool :=
  spec.name == "" &&
  spec.nameTrans == "" &&
  spec.type == "" &&
  spec.buttonType == "" &&
  spec.otherType == "" &&
  spec.action == "" &&
  spec.linkedFrameID == "" &&
  spec.navigationNote == "" &&
  spec.dataType == "" &&
  spec.required.isNone &&
  spec.format == "" &&
  spec.minLength.isNone &&
  spec.maxLength.isNone &&
  spec.defaultValue == "" &&
  spec.validationNote == "" &&
  spec.tableName == "" &&
  spec.columnName == "" &&
  spec.databaseNote == "" &&
  spec.description == ""

/-- The comparison projection built by `MapSpecForComparison`: a fixed
key set, so Go's `map[string]interface\x7b\x7d` with these exact keys is
represented by a record; `reflect.DeepEqual` on two such maps is
field-wise value equality. -/
structure SpecComparison where
  name : String
  nameTrans : String
  type : String
  buttonType : String
  otherType : String
  action : String
  linkedFrameId : String
  navigationNote : String
  dataType : String
  format : String
  defaultValue : String
  validationNote : String
  tableName : String
  columnName : String
  databaseNote : String
  description : String
  required : Option Bool
  minLength : Option Int
  maxLength : Option Int
  deriving DecidableEq, Repr

/-- `MapSpecForComparison` (part_007): nil pointer maps to nil map. -/
def MapSpecForComparison : Option Spec → Option SpecComparison
  | none => none
  | some spec => some
    { name := spec.name
      nameTrans := spec.nameTrans
      type := spec.type
      buttonType := spec.buttonType
      otherType := spec.otherType
      action := spec.action
      linkedFrameId := spec.linkedFrameID
      navigationNote := spec.navigationNote
      dataType := spec.dataType
      format := spec.format
      defaultValue := spec.defaultValue
      validationNote := spec.validationNote
      tableName := spec.tableName
      columnName := spec.columnName
      databaseNote := spec.databaseNote
      description := spec.description
      required := spec.required
      minLength := spec.minLength
      maxLength := spec.maxLength }

/-- `CompareSpecs` (part_007): nil/nil equal, nil/non-nil unequal,
otherwise `reflect.DeepEqual` = structural equality. -/
def CompareSpecs : Option SpecComparison → Option SpecComparison → Bool
  | none, none => true
  | none, some _ => false
  | some _, none => false
  | some a, some b => decide (a = b)

/-- `DetermineSpecStatus` (part_007).  The `existingStatus` argument is
accepted and ignored, as in the source. -/
def DetermineSpecStatus (spec : Spec) (existingStatus : String) : String × List String :=
  if IsSpecContentEmpty spec then (DesignItemStatusNone, [])
  else
    let completedErrors := ValidateSpecContent spec DesignItemStatusCompleted
    if completedErrors = [] then (DesignItemStatusCompleted, [])
    else
      let draftErrors := ValidateSpecContent spec DesignItemStatusDraft
      if draftErrors = [] then (DesignItemStatusDraft, [])
      else (DesignItemStatusDraft, draftErrors)

/-! ### Payload shape (internal/upload/types.go) -/

/-- `ItemSpec`: item-related payload group. -/
structure ItemSpec where
  name : String := ""
  nameTrans : String := ""
  buttonType : String := ""
  otherType : String := ""
  deriving DecidableEq, Repr

/-- `NavigationSpec`: navigation-related payload group. -/
structure NavigationSpec where
  action : String := ""
  linkedFrameID : String := ""
  linkedFrameName : String := ""
  note : String := ""
  deriving DecidableEq, Repr

/-- `ValidationSpec`: validation-related payload group. -/
structure ValidationSpec where
  dataType : String := ""
  required : Option Bool := none
  format : String := ""
  minLength : Option Int := none
  maxLength : Option Int := none
  defaultValue : String := ""
  note : String := ""
  deriving DecidableEq, Repr

/-- `DatabaseSpec`: database-related payload group. -/
structure DatabaseSpec where
  tableName : String := ""
  columnName : String := ""
  note : String := ""
  deriving DecidableEq, Repr

/-- `SpecDetails`: nested specs payload, groups optional as in Go
pointers. -/
structure SpecDetails where
  item : Option ItemSpec := none
  navigation : Option NavigationSpec := none
  validation : Option ValidationSpec := none
  database : Option DatabaseSpec := none
  description : String := ""
  deriving DecidableEq, Repr

/-- `SpecPayload`: the write-shape sent to the remote store. -/
structure SpecPayload where
  type : String := ""
  no : String := ""
  name : String := ""
  status : String := ""
  sectionLinkID : String := ""
  nodeLinkID : String := ""
  frameID : Int := 0
  fileID : Int := 0
  isReviewed : Option Bool := none
  specs : Option SpecDetails := none
  deriving DecidableEq, Repr

def conditionalString (condition : Bool) (value : String) : String :=
  if condition then value else ""

def conditionalInt (condition : Bool) (value : Option Int) : Option Int :=
  if condition then value else none

def conditionalBool (condition : Bool) (value : Option Bool) : Option Bool :=
  if condition then value else none

/-- `TransformSpecToPayload` (part_005): builds the nested payload with
type-based conditional suppression. -/
def TransformSpecToPayload (spec : Spec) (frameID fileID : Int)
    (sectionLinkID status : String) : SpecPayload :=
  let itemType := spec.type
  let specs : SpecDetails :=
    { item := some
        { name := spec.name
          nameTrans := spec.nameTrans
          buttonType := conditionalString (itemType == "button") spec.buttonType
          otherType := conditionalString (itemType == "others") spec.otherType }
      navigation := some
        { action := spec.action
          linkedFrameID := conditionalString (spec.action != "") spec.linkedFrameID
          linkedFrameName := ""
          note := spec.navigationNote }
      validation := some
        { dataType := conditionalString (contains TypesRequiringDataType itemType) spec.dataType
          required := conditionalBool (!(contains TypesWithoutValidation itemType)) spec.required
          format := conditionalString (!(contains TypesWithoutValidation itemType)) spec.format
          minLength := conditionalInt (contains TypesRequiringLength itemType) spec.minLength
          maxLength := conditionalInt (contains TypesRequiringLength itemType) spec.maxLength
          defaultValue := spec.defaultValue
          note := spec.validationNote }
      database := some
        { tableName := conditionalString (itemType != "button") spec.tableName
          columnName := conditionalString (itemType != "button") spec.columnName
          note := spec.databaseNote }
      description := spec.description }
  { type := spec.type
    no := spec.no
    name := spec.designItemName
    status := status
    nodeLinkID := spec.nodeLinkID
    sectionLinkID := sectionLinkID
    frameID := frameID
    fileID := fileID
    isReviewed := spec.isReviewed
    specs := some specs }

/-! ### Remote records and the orchestrator (cmd/upload_specs.go) -/

/-- `graphql.DesignItem`: an existing remote record.  Its `specs` JSON
blob is represented structurally as the `SpecDetails` it decodes to
(absent blob = `none`). -/
structure DesignItem where
  id : Int := 0
  no : String := ""
  name : String := ""
  type : String := ""
  nodeLinkID : String := ""
  sectionLinkID : String := ""
  frameID : Int := 0
  status : String := ""
  specs : Option SpecDetails := none
  deriving DecidableEq, Repr

/-- `graphql.Frame`. -/
structure Frame where
  id : Int := 0
  frameLinkID : String := ""
  fileID : Int := 0
  name : String := ""
  status : String := ""
  deriving DecidableEq, Repr

/-- `convertDesignItemToSpec` (cmd/upload_specs.go): rebuilds a `Spec`
from a remote record, reading each group of its nested specs when
present. -/
def convertDesignItemToSpec (item : DesignItem) : Spec :=
  let base : Spec :=
    { no := item.no
      nodeLinkID := item.nodeLinkID
      sectionLinkID := item.sectionLinkID
      type := item.type }
  match item.specs with
  | none => base
  | some d =>
    let s1 := match d.item with
      | none => base
      | some it =>
        { base with name := it.name, nameTrans := it.nameTrans,
                    buttonType := it.buttonType, otherType := it.otherType }
    let s2 := match d.navigation with
      | none => s1
      | some nav =>
        { s1 with action := nav.action, linkedFrameID := nav.linkedFrameID,
                  navigationNote := nav.note }
    let s3 := match d.validation with
      | none => s2
      | some v =>
        { s2 with dataType := v.dataType, required := v.required, format := v.format,
                  minLength := v.minLength, maxLength := v.maxLength,
                  defaultValue := v.defaultValue, validationNote := v.note }
    let s4 := match d.database with
      | none => s3
      | some db =>
        { s3 with tableName := db.tableName, columnName := db.columnName,
                  databaseNote := db.note }
    { s4 with description := d.description }

/-- `ValidatedSpec` (internal/upload/types.go). -/
structure ValidatedSpec where
  spec : Spec
  status : String := ""
  isValid : Bool := false
  errors : List String := []
  changed : Bool := false
  isNew : Bool := false
  deriving DecidableEq, Repr

/-- Fixed violation attached to rows whose remote record is deleted. -/
def deletedItemMsg : String :=
  "The item has been deleted in Figma. Please review or remove the corresponding row."

/-- Violation attached when a linked frame reference does not resolve. -/
def linkedFrameNotFoundMsg (id : String) : String :=
  "Linked frame with ID \"" ++ id ++ "\" not found"

/-- The `existingMap` fill loop: a Go map keyed by `node_link_id`,
later entries overwriting earlier ones. -/
def buildExistingMap (items : List DesignItem) : String → Option DesignItem :=
  items.foldl (fun m it => fun k => if k == it.nodeLinkID then some it else m k)
    (fun _ => none)

/-- Outcome of one iteration of the per-row classification loop. -/
inductive RowOutcome where
  | skippedRow
  | invalidRow (v : ValidatedSpec)
  | validRow (v : ValidatedSpec)
  deriving DecidableEq, Repr

/-- Body of the classification loop after the deleted-status check:
determine status, diff against the existing record, skip unchanged
rows, and partition by validation errors. -/
def classifyLive (spec : Spec) (existing : Option DesignItem) : RowOutcome :=
  let sv := DetermineSpecStatus spec ""
  let status := sv.1
  let validationErrors := sv.2
  let currentSpecMap := MapSpecForComparison (some spec)
  let previousSpecMap : Option SpecComparison :=
    match existing with
    | some it => MapSpecForComparison (some (convertDesignItemToSpec it))
    | none => none
  let hasChanged := !(CompareSpecs currentSpecMap previousSpecMap)
  let skipUnchanged :=
    match existing with
    | some it => !hasChanged && it.status == status
    | none => false
  if skipUnchanged then .skippedRow
  else if validationErrors ≠ [] then
    .invalidRow { spec := spec, status := status, isValid := false,
                  errors := validationErrors, changed := hasChanged,
                  isNew := existing.isNone }
  else
    .validRow { spec := spec, status := status, isValid := true,
                errors := [], changed := hasChanged, isNew := existing.isNone }

/-- One iteration of the classification loop: the deleted check runs
first, before status determination and change detection. -/
def classifyRow (lookup : String → Option DesignItem) (spec : Spec) : RowOutcome :=
  match lookup spec.nodeLinkID with
  | some existingItem =>
    if existingItem.status == DesignItemStatusDeleted then
      .invalidRow { spec := spec, isValid := false, errors := [deletedItemMsg] }
    else classifyLive spec (some existingItem)
  | none => classifyLive spec none

/-- The whole classification loop, producing `(validSpecs, invalidSpecs)`
in file order. -/
def classifySpecs (lookup : String → Option DesignItem) :
    List Spec → List ValidatedSpec × List ValidatedSpec
  | [] => ([], [])
  | spec :: rest =>
    let r := classifySpecs lookup rest
    match classifyRow lookup spec with
    | .skippedRow => r
    | .invalidRow v => (r.1, v :: r.2)
    | .validRow v => (v :: r.1, r.2)

/-- First-occurrence deduplication, modelling the collection of the
unique linked-frame ids through a Go set-map (iteration order of a Go
map is unspecified; the set content is what matters). -/
def dedup (xs : List String) : List String :=
  xs.foldl (fun acc x => if acc.contains x then acc else acc ++ [x]) []

/-- Result of the linked-frame validation stage, recording each batched
existence query that was issued. -/
structure LinkedStageResult where
  valids : List ValidatedSpec
  invalids : List ValidatedSpec
  queries : List (List String)
  deriving Repr

/-- The linked-frame validation stage: collect rows carrying a
non-empty reference, issue one batched query over the deduplicated ids,
and on success mark unresolved rows invalid and move them out of the
valid set.  A query error is only logged: the stage leaves both sets
untouched. -/
def linkedFrameStage (query : List String → Except Unit (List String))
    (valids invalids : List ValidatedSpec) : LinkedStageResult :=
  let withLF := valids.filter (fun v => v.spec.linkedFrameID != "")
  if withLF.isEmpty then ⟨valids, invalids, []⟩
  else
    let frameLinkIds := dedup (withLF.map (fun v => v.spec.linkedFrameID))
    match query frameLinkIds with
    | .error _ => ⟨valids, invalids, [frameLinkIds]⟩
    | .ok found =>
      let updated := valids.map (fun v =>
        if v.spec.linkedFrameID != "" && v.isValid
            && !(found.contains v.spec.linkedFrameID) then
          { v with isValid := false,
                   errors := v.errors ++ [linkedFrameNotFoundMsg v.spec.linkedFrameID] }
        else v)
      ⟨updated.filter (fun v => v.isValid),
       invalids ++ updated.filter (fun v => !v.isValid),
       [frameLinkIds]⟩

/-- Per-row payload construction with the three-step `section_link_id`
resolution (CSV value, then existing record, then frame link id). -/
def buildUpsertItems (lookup : String → Option DesignItem) (frame : Frame)
    (valids : List ValidatedSpec) : List SpecPayload :=
  valids.map (fun validated =>
    let spec := validated.spec
    let sl0 := spec.sectionLinkID
    let sl1 :=
      if sl0 == "" then
        match lookup spec.nodeLinkID with
        | some existing => if existing.sectionLinkID != "" then existing.sectionLinkID else sl0
        | none => sl0
      else sl0
    let sl2 := if sl1 == "" then frame.frameLinkID else sl1
    TransformSpecToPayload spec frame.id frame.fileID sl2 validated.status)

/-- `Revision`: an audit-trail entry. -/
structure Revision where
  designItemID : Int
  status : String
  specs : Option SpecDetails
  type : String
  changeType : String
  name : String
  userID : Int
  deriving DecidableEq, Repr

/-- The revision tracker: one revision per written record that is new,
or whose spec projection differs from its pre-write remote record. -/
def revisionNeeded (lookup : String → Option DesignItem) (valids : List ValidatedSpec)
    (item : DesignItem) : Bool :=
  match lookup item.nodeLinkID with
  | none => true
  | some existingItem =>
    let existingSpec := convertDesignItemToSpec existingItem
    let currentSpecMap := MapSpecForComparison (some existingSpec)
    match valids.find? (fun vs => vs.spec.nodeLinkID == item.nodeLinkID) with
    | some vs =>
      !(CompareSpecs (MapSpecForComparison (some vs.spec)) currentSpecMap)
    | none => false

def buildRevisions (lookup : String → Option DesignItem) (valids : List ValidatedSpec)
    (userID : Int) (savedItems : List DesignItem) : List Revision :=
  savedItems.filterMap (fun item =>
    if revisionNeeded lookup valids item then
      some { designItemID := item.id, status := item.status, specs := item.specs,
             type := item.type, changeType := "user", name := "", userID := userID }
    else none)

/-- `UploadStatus` (internal/upload/types.go). -/
inductive UploadStatus where
  | success
  | failed
  | skipped
  deriving DecidableEq, Repr

/-- The external collaborators of one file upload, as result oracles:
frame lookup, batched existing-record fetch, linked-frame existence
query, batched upsert, and user identity resolution. -/
structure ClientModel where
  frame : Except Unit Frame
  fetchItems : Except Unit (List DesignItem)
  linkedQuery : List String → Except Unit (List String)
  upsert : List SpecPayload → Except Unit (List DesignItem)
  user : Except Unit Int

/-- Observable result of one file upload: outcome plus the write and
revision traffic it generated. -/
structure RunResult where
  status : UploadStatus
  message : String := ""
  validSpecs : List ValidatedSpec := []
  invalidSpecs : List ValidatedSpec := []
  upsertItems : List SpecPayload := []
  savedItems : List DesignItem := []
  revisions : List Revision := []
  linkedQueries : List (List String) := []
  deriving Repr

/-- The per-file pipeline after the structural gates: classify rows,
check linked frames, build and send the upsert batch, track revisions. -/
def pipelineCore (frame : Frame) (lookup : String → Option DesignItem)
    (query : List String → Except Unit (List String))
    (upsertFn : List SpecPayload → Except Unit (List DesignItem))
    (userRes : Except Unit Int) (actor : String) (specs : List Spec) : RunResult :=
  let classified := classifySpecs lookup specs
  let ls := linkedFrameStage query classified.1 classified.2
  if ls.valids.isEmpty then
    if !ls.invalids.isEmpty then
      { status := .failed,
        message := "No valid specs to update (" ++ toString ls.invalids.length ++ " invalid)",
        invalidSpecs := ls.invalids, linkedQueries := ls.queries }
    else
      { status := .skipped, message := "No changes detected",
        linkedQueries := ls.queries }
  else
    let items := buildUpsertItems lookup frame ls.valids
    match upsertFn items with
    | .error _ =>
      { status := .failed, message := "Failed to upsert specs",
        validSpecs := ls.valids, invalidSpecs := ls.invalids,
        upsertItems := items, linkedQueries := ls.queries }
    | .ok savedItems =>
      let revisions :=
        if actor != "" then
          match userRes with
          | .ok userID => buildRevisions lookup ls.valids userID savedItems
          | .error _ => []
        else []
      { status := .success,
        message := "Uploaded " ++ toString savedItems.length ++ " specs",
        validSpecs := ls.valids, invalidSpecs := ls.invalids,
        upsertItems := items, savedItems := savedItems,
        revisions := revisions, linkedQueries := ls.queries }

/-- `uploadSingleSpecFile` (cmd/upload_specs.go) from the point where
the CSV rows are in hand.  A failed batched fetch of existing records
is only logged and processing continues with an empty record set.
Revision-insert transport failure is only logged, so the revision list
records what the tracker decided to write. -/
def uploadSpecsPipeline (client : ClientModel) (actor : String)
    (specs : List Spec) : RunResult :=
  if specs.isEmpty then
    { status := .skipped, message := "CSV file contains no specs" }
  else
    match client.frame with
    | .error _ => { status := .failed, message := "Frame not found" }
    | .ok frame =>
      if frame.status == "design" then
        { status := .failed, message := "Cannot upload specs to frame in design status" }
      else
        let nodeLinkIds := (specs.map (fun s => s.nodeLinkID)).filter (fun s => s != "")
        if nodeLinkIds.isEmpty then
          { status := .failed, message := "No valid node link IDs provided" }
        else
          let existingItems :=
            match client.fetchItems with
            | .ok items => items
            | .error _ => []
          pipelineCore frame (buildExistingMap existingItems) client.linkedQuery
            client.upsert client.user actor specs

/-- The echoing upsert server: each payload becomes the stored record
with the written fields, as listed in the upsert item map. -/
def payloadToDesignItem (p : SpecPayload) : DesignItem :=
  { id := 0, no := p.no, name := p.name, type := p.type,
    nodeLinkID := p.nodeLinkID, sectionLinkID := p.sectionLinkID,
    frameID := p.frameID, status := p.status, specs := p.specs }

/-! ### Concrete fixtures used by counterexamples and witnesses -/

/-- A frame in an editable status. -/
def frameFix : Frame := { id := 1, frameLinkID := "fl", fileID := 2, status := "published" }

/-- Upsert oracle that echoes each payload as the stored record. -/
def echoUpsert : List SpecPayload → Except Unit (List DesignItem) :=
  fun items => .ok (items.map payloadToDesignItem)

/-- A row whose `buttonType` is set while its type is not `button`: the
payload transformer suppresses the field, so the stored record never
matches the row again. -/
def specToggle : Spec := { nodeLinkID := "n1", type := "checkbox", buttonType := "toggle" }

/-- Baseline client: frame found, no existing records, all linked
frames resolve, echoing upsert, user resolved. -/
def clientFix : ClientModel :=
  { frame := .ok frameFix, fetchItems := .ok [], linkedQuery := fun _ => .ok [],
    upsert := echoUpsert, user := .ok 7 }

/-- First run of the toggle row against an empty remote store. -/
def runToggle1 : RunResult := uploadSpecsPipeline clientFix "actor" [specToggle]

/-- Client for the second run: the remote store now holds exactly what
the first run wrote. -/
def clientToggle2 : ClientModel := { clientFix with fetchItems := .ok runToggle1.savedItems }

/-- Second run of the same unchanged row. -/
def runToggle2 : RunResult := uploadSpecsPipeline clientToggle2 "actor" [specToggle]

/-- Client whose batched existing-record fetch fails. -/
def clientFetchFail : ClientModel := { clientFix with fetchItems := .error () }

/-- Row and stored record that agree after a payload round trip:
used to witness the amended idempotence statement. -/
def specRound : Spec := { nodeLinkID := "k", description := "d" }

/-- The remote record matching `specRound`: same projection, and the
status that `DetermineSpecStatus` assigns to the row. -/
def itemRound : DesignItem :=
  { nodeLinkID := "k", status := "draft", specs := some { description := "d" } }

def clientRound : ClientModel := { clientFix with fetchItems := .ok [itemRound] }

/-- A remote record in deleted status under the toggle row's key. -/
def itemDeleted : DesignItem := { nodeLinkID := "n1", status := "deleted" }

def clientDeleted : ClientModel := { clientFix with fetchItems := .ok [itemDeleted] }

/-- A row referencing a linked frame. -/
def specLinked : Spec :=
  { nodeLinkID := "n3", type := "checkbox", action := "on_click", linkedFrameID := "LF1" }

/-- Client whose linked-frame query succeeds but returns nothing. -/
def clientLinkedMiss : ClientModel := { clientFix with linkedQuery := fun _ => .ok [] }

/-- Client whose linked-frame query fails. -/
def clientLinkedErr : ClientModel := { clientFix with linkedQuery := fun _ => .error () }

end Momorph

namespace Momorph

/-! ### Validator helper lemmas: which message each block can emit -/

theorem typeErrors_subset {spec : Spec} {c : Bool} {x : String}
    (h : x ∈ typeErrors spec c) : x = typeRequiredMsg ∨ x = typeEnumMsg := by
  unfold typeErrors at h
  repeat' split at h <;> simp_all

theorem nameErrors_subset {spec : Spec} {c : Bool} {x : String}
    (h : x ∈ nameErrors spec c) : x = nameLenMsg := by
  unfold nameErrors at h
  split at h <;> simp_all

theorem nameTransErrors_subset {spec : Spec} {c : Bool} {x : String}
    (h : x ∈ nameTransErrors spec c) : x = nameTransLenMsg := by
  unfold nameTransErrors at h
  split at h <;> simp_all

theorem buttonTypeErrors_subset {spec : Spec} {c : Bool} {x : String}
    (h : x ∈ buttonTypeErrors spec c) : x = buttonTypeEnumMsg := by
  unfold buttonTypeErrors at h
  repeat' split at h <;> simp_all

theorem otherTypeErrors_subset {spec : Spec} {c : Bool} {x : String}
    (h : x ∈ otherTypeErrors spec c) : x = otherTypeLenMsg := by
  unfold otherTypeErrors at h
  repeat' split at h <;> simp_all

theorem actionErrors_subset {spec : Spec} {x : String}
    (h : x ∈ actionErrors spec) : x = actionEnumMsg := by
  unfold actionErrors at h
  repeat' split at h <;> simp_all

theorem navigationNoteErrors_subset {spec : Spec} {c : Bool} {x : String}
    (h : x ∈ navigationNoteErrors spec c) : x = navigationNoteLenMsg := by
  unfold navigationNoteErrors at h
  repeat' split at h <;> simp_all

theorem dataTypeErrors_subset {spec : Spec} {c : Bool} {x : String}
    (h : x ∈ dataTypeErrors spec c) : x = dataTypeEnumMsg := by
  unfold dataTypeErrors at h
  repeat' split at h <;> simp_all

theorem formatErrors_subset {spec : Spec} {c : Bool} {x : String}
    (h : x ∈ formatErrors spec c) : x = formatLenMsg := by
  unfold formatErrors at h
  repeat' split at h <;> simp_all

theorem minLengthErrors_subset {spec : Spec} {c : Bool} {x : String}
    (h : x ∈ minLengthErrors spec c) : x = minLengthNegMsg := by
  unfold minLengthErrors at h
  repeat' split at h <;> simp_all

theorem maxLengthErrors_subset {spec : Spec} {c : Bool} {x : String}
    (h : x ∈ maxLengthErrors spec c) : x = maxLengthNegMsg := by
  unfold maxLengthErrors at h
  repeat' split at h <;> simp_all

theorem crossLengthErrors_subset {spec : Spec} {x : String}
    (h : x ∈ crossLengthErrors spec) : x = crossLengthMsg := by
  unfold crossLengthErrors at h
  repeat' split at h <;> simp_all

theorem defaultValueErrors_subset {spec : Spec} {c : Bool} {x : String}
    (h : x ∈ defaultValueErrors spec c) : x = defaultValueLenMsg := by
  unfold defaultValueErrors at h
  split at h <;> simp_all

theorem validationNoteErrors_subset {spec : Spec} {c : Bool} {x : String}
    (h : x ∈ validationNoteErrors spec c) : x = validationNoteLenMsg := by
  unfold validationNoteErrors at h
  split at h <;> simp_all

theorem tableNameErrors_subset {spec : Spec} {c : Bool} {x : String}
    (h : x ∈ tableNameErrors spec c) : x = tableNameLenMsg := by
  unfold tableNameErrors at h
  split at h <;> simp_all

theorem columnNameErrors_subset {spec : Spec} {c : Bool} {x : String}
    (h : x ∈ columnNameErrors spec c) : x = columnNameLenMsg := by
  unfold columnNameErrors at h
  split at h <;> simp_all

theorem databaseNoteErrors_subset {spec : Spec} {c : Bool} {x : String}
    (h : x ∈ databaseNoteErrors spec c) : x = databaseNoteLenMsg := by
  unfold databaseNoteErrors at h
  split at h <;> simp_all

theorem descriptionErrors_subset {spec : Spec} {c : Bool} {x : String}
    (h : x ∈ descriptionErrors spec c) : x = descriptionLenMsg := by
  unfold descriptionErrors at h
  split at h <;> simp_all

/-- The cross-field message appears in the validator output exactly when
the cross-field block emits it: no other block can produce that text. -/
theorem crossLengthMsg_mem_validate (spec : Spec) (status : String) :
    crossLengthMsg ∈ ValidateSpecContent spec status ↔
      crossLengthMsg ∈ crossLengthErrors spec := by
  unfold ValidateSpecContent
  simp only [List.mem_append, or_assoc]
  constructor
  · rintro (h|h|h|h|h|h|h|h|h|h|h|h|h|h|h|h|h|h)
    · exact absurd (typeErrors_subset h) (by decide)
    · exact absurd (nameErrors_subset h) (by decide)
    · exact absurd (nameTransErrors_subset h) (by decide)
    · exact absurd (buttonTypeErrors_subset h) (by decide)
    · exact absurd (otherTypeErrors_subset h) (by decide)
    · exact absurd (actionErrors_subset h) (by decide)
    · exact absurd (navigationNoteErrors_subset h) (by decide)
    · exact absurd (dataTypeErrors_subset h) (by decide)
    · exact absurd (formatErrors_subset h) (by decide)
    · exact absurd (minLengthErrors_subset h) (by decide)
    · exact absurd (maxLengthErrors_subset h) (by decide)
    · exact h
    · exact absurd (defaultValueErrors_subset h) (by decide)
    · exact absurd (validationNoteErrors_subset h) (by decide)
    · exact absurd (tableNameErrors_subset h) (by decide)
    · exact absurd (columnNameErrors_subset h) (by decide)
    · exact absurd (databaseNoteErrors_subset h) (by decide)
    · exact absurd (descriptionErrors_subset h) (by decide)
  · intro h
    exact Or.inr (Or.inr (Or.inr (Or.inr (Or.inr (Or.inr (Or.inr (Or.inr (Or.inr
      (Or.inr (Or.inr (Or.inl h)))))))))))

/-- Same characterization for the buttonType enumeration message. -/
theorem buttonTypeEnumMsg_mem_validate (spec : Spec) (status : String) :
    buttonTypeEnumMsg ∈ ValidateSpecContent spec status ↔
      buttonTypeEnumMsg ∈ buttonTypeErrors spec (status == DesignItemStatusCompleted) := by
  unfold ValidateSpecContent
  simp only [List.mem_append, or_assoc]
  constructor
  · rintro (h|h|h|h|h|h|h|h|h|h|h|h|h|h|h|h|h|h)
    · exact absurd (typeErrors_subset h) (by decide)
    · exact absurd (nameErrors_subset h) (by decide)
    · exact absurd (nameTransErrors_subset h) (by decide)
    · exact h
    · exact absurd (otherTypeErrors_subset h) (by decide)
    · exact absurd (actionErrors_subset h) (by decide)
    · exact absurd (navigationNoteErrors_subset h) (by decide)
    · exact absurd (dataTypeErrors_subset h) (by decide)
    · exact absurd (formatErrors_subset h) (by decide)
    · exact absurd (minLengthErrors_subset h) (by decide)
    · exact absurd (maxLengthErrors_subset h) (by decide)
    · exact absurd (crossLengthErrors_subset h) (by decide)
    · exact absurd (defaultValueErrors_subset h) (by decide)
    · exact absurd (validationNoteErrors_subset h) (by decide)
    · exact absurd (tableNameErrors_subset h) (by decide)
    · exact absurd (columnNameErrors_subset h) (by decide)
    · exact absurd (databaseNoteErrors_subset h) (by decide)
    · exact absurd (descriptionErrors_subset h) (by decide)
  · intro h
    exact Or.inr (Or.inr (Or.inr (Or.inl h)))

end Momorph

namespace Momorph

/-! ### Claim theorems over the leaf functions -/

/-- Claim C1: for every spec whose content is not empty,
`DetermineSpecStatus` tries `completed` first and falls back: zero
completed violations give `(completed, [])`; otherwise zero draft
violations give `(draft, [])`; otherwise `draft` is paired with exactly
the draft-level violations, and completed-level violations are never
returned. -/
theorem c1_determine_status_completed_first (spec : Spec) (es : String)
    (h : IsSpecContentEmpty spec = false) :
    DetermineSpecStatus spec es =
      if ValidateSpecContent spec DesignItemStatusCompleted = [] then
        (DesignItemStatusCompleted, [])
      else if ValidateSpecContent spec DesignItemStatusDraft = [] then
        (DesignItemStatusDraft, [])
      else (DesignItemStatusDraft, ValidateSpecContent spec DesignItemStatusDraft) := by
  simp [DetermineSpecStatus, h]

/-- Witness for C1 at a concrete non-empty spec. -/
theorem c1_determine_status_completed_first_witness :
    IsSpecContentEmpty { type := "checkbox" } = false ∧
    DetermineSpecStatus { type := "checkbox" } "" =
      if ValidateSpecContent { type := "checkbox" } DesignItemStatusCompleted = [] then
        (DesignItemStatusCompleted, [])
      else if ValidateSpecContent { type := "checkbox" } DesignItemStatusDraft = [] then
        (DesignItemStatusDraft, [])
      else (DesignItemStatusDraft,
            ValidateSpecContent { type := "checkbox" } DesignItemStatusDraft) :=
  ⟨by decide, c1_determine_status_completed_first _ "" (by decide)⟩

/-- Claim C2 counterexample: a spec whose every content field other
than `type` is absent but whose `type` is `button` is NOT given status
`none` — the emptiness check treats `type` as a content field, so the
spec is non-empty and in fact validates as `completed`.  This refutes
the claim that `none` is returned regardless of the `type` value. -/
theorem c2_status_none_counterexample :
    DetermineSpecStatus { type := "button" } "" = (DesignItemStatusCompleted, []) ∧
    DesignItemStatusCompleted ≠ DesignItemStatusNone := by decide

/-- Claim C2 (amended): `DetermineSpecStatus` returns `(none, [])`
exactly when every content field INCLUDING `type` is absent; the
structural fields excluded from the emptiness check are the natural
key, the section link, `no`, the design item name and the review flag,
but not `type`. -/
theorem c2_status_none_iff_empty (spec : Spec) (es : String) :
    DetermineSpecStatus spec es = (DesignItemStatusNone, []) ↔
      IsSpecContentEmpty spec = true := by
  unfold DetermineSpecStatus
  by_cases h1 : IsSpecContentEmpty spec
  · simp [h1]
  · simp only [Bool.not_eq_true] at h1
    rw [if_neg (by simp [h1])]
    have hcn : DesignItemStatusCompleted ≠ DesignItemStatusNone := by decide
    have hdn : DesignItemStatusDraft ≠ DesignItemStatusNone := by decide
    by_cases h2 : ValidateSpecContent spec DesignItemStatusCompleted = []
    · rw [if_pos h2]
      simp [h1, Prod.ext_iff, hcn]
    · rw [if_neg h2]
      by_cases h3 : ValidateSpecContent spec DesignItemStatusDraft = []
      · rw [if_pos h3]
        simp [h1, Prod.ext_iff, hdn]
      · rw [if_neg h3]
        simp [h1, Prod.ext_iff, hdn]

/-- Claim C4 counterexample: `min_length = 3, max_length = 3` satisfies
`min_length <= max_length`, yet the cross-field violation is produced —
the code's rule is strict (`min < max`), not `min <= max`. -/
theorem c4_cross_field_counterexample :
    (3 : Int) ≤ 3 ∧
    crossLengthMsg ∈
      ValidateSpecContent { minLength := some 3, maxLength := some 3 }
        DesignItemStatusDraft := by
  decide

/-- Claim C4 (amended): with both bounds present, the cross-field rule
fires exactly when `min_length >= max_length` (equivalently, it accepts
exactly the pairs with `min_length < max_length`), independent of type
and target status.  `min=5,max=3` is always a violation and
`min=3,max=5` never trips this rule, as the original claim states. -/
theorem c4_cross_field_strict (spec : Spec) (status : String) (lo hi : Int)
    (hmin : spec.minLength = some lo) (hmax : spec.maxLength = some hi) :
    (crossLengthMsg ∈ ValidateSpecContent spec status ↔ hi ≤ lo) := by
  rw [crossLengthMsg_mem_validate]
  by_cases h : hi ≤ lo <;> simp [crossLengthErrors, hmin, hmax, h, ge_iff_le]

/-- Witness for C4 (amended) at `min=5, max=3`. -/
theorem c4_cross_field_strict_witness :
    (crossLengthMsg ∈
      ValidateSpecContent { minLength := some 5, maxLength := some 3 }
        DesignItemStatusCompleted
      ↔ (3 : Int) ≤ 5) :=
  c4_cross_field_strict _ _ 5 3 rfl rfl

/-- Claim C5 counterexample: a spec with `type = button`, validated
against `completed`, with `button_type` absent, produces NO violations
at all — in particular no violation mentioning the allowed button
types.  The contextual requirement in the source is vacuous: the inner
check only fires when `button_type` is present. -/
theorem c5_button_type_counterexample :
    ValidateSpecContent { type := "button" } DesignItemStatusCompleted = [] := by decide

/-- Claim C5 (amended): the `button_type` rule emits its enumeration
violation only when the field is present and outside the accepted
enumeration; an absent `button_type` never produces a button-type
violation (even for `type = button` at `completed`), and the value
`icon_text` never produces one. -/
theorem c5_button_type_enum_only_when_present (spec : Spec) (status : String) :
    (spec.buttonType = "" → buttonTypeEnumMsg ∉ ValidateSpecContent spec status) ∧
    (spec.buttonType = "icon_text" → buttonTypeEnumMsg ∉ ValidateSpecContent spec status) ∧
    (spec.buttonType ≠ "" → contains AcceptedButtonTypes spec.buttonType = false →
      buttonTypeEnumMsg ∈ ValidateSpecContent spec status) := by
  refine ⟨?_, ?_, ?_⟩
  · intro h
    rw [buttonTypeEnumMsg_mem_validate]
    simp [buttonTypeErrors, h]
  · intro h
    have hc : contains AcceptedButtonTypes "icon_text" = true := by decide
    rw [buttonTypeEnumMsg_mem_validate]
    simp [buttonTypeErrors, h, hc]
  · intro h1 h2
    rw [buttonTypeEnumMsg_mem_validate]
    simp [buttonTypeErrors, h1, h2]

/-- Witness for C5 (amended): the absent-buttonType branch at the
claim's own example row. -/
theorem c5_button_type_enum_only_when_present_witness :
    buttonTypeEnumMsg ∉ ValidateSpecContent { type := "button" } DesignItemStatusCompleted :=
  (c5_button_type_enum_only_when_present { type := "button" } DesignItemStatusCompleted).1 rfl

/-- Claim C9: the comparator is reflexive, two nil projections are
equal, nil versus non-nil is never equal, and two spec projections are
equal exactly when every content field agrees — so changing any single
content field (value equality, nil distinct from empty string and from
zero) makes the comparison false. -/
theorem c9_comparator_reflexive_detects_changes (m : Option SpecComparison)
    (a : SpecComparison) (s t : Spec) :
    CompareSpecs m m = true ∧
    CompareSpecs none none = true ∧
    CompareSpecs none (some a) = false ∧
    CompareSpecs (some a) none = false ∧
    (CompareSpecs (MapSpecForComparison (some s)) (MapSpecForComparison (some t)) = true ↔
      (s.name = t.name ∧ s.nameTrans = t.nameTrans ∧ s.type = t.type ∧
       s.buttonType = t.buttonType ∧ s.otherType = t.otherType ∧ s.action = t.action ∧
       s.linkedFrameID = t.linkedFrameID ∧ s.navigationNote = t.navigationNote ∧
       s.dataType = t.dataType ∧ s.format = t.format ∧ s.defaultValue = t.defaultValue ∧
       s.validationNote = t.validationNote ∧ s.tableName = t.tableName ∧
       s.columnName = t.columnName ∧ s.databaseNote = t.databaseNote ∧
       s.description = t.description ∧ s.required = t.required ∧
       s.minLength = t.minLength ∧ s.maxLength = t.maxLength)) := by
  refine ⟨?_, rfl, rfl, rfl, ?_⟩
  · cases m <;> simp [CompareSpecs]
  · simp [CompareSpecs, MapSpecForComparison, SpecComparison.mk.injEq]

end Momorph

namespace Momorph

/-! ### Classification loop lemmas -/

theorem compareSpecs_self (m : Option SpecComparison) : CompareSpecs m m = true := by
  cases m <;> simp [CompareSpecs]

theorem determineSpecStatus_fst_ne_deleted (spec : Spec) (es : String) :
    ((DetermineSpecStatus spec es).1 == DesignItemStatusDeleted) = false := by
  simp only [DetermineSpecStatus]
  split_ifs <;> rfl

theorem classifyRow_deleted {lookup : String → Option DesignItem} {spec : Spec} {it : DesignItem}
    (hl : lookup spec.nodeLinkID = some it) (hd : it.status = DesignItemStatusDeleted) :
    classifyRow lookup spec =
      .invalidRow { spec := spec, isValid := false, errors := [deletedItemMsg] } := by
  simp [classifyRow, hl, hd]

theorem classifyRow_skip {lookup : String → Option DesignItem} {spec : Spec} {it : DesignItem}
    (hl : lookup spec.nodeLinkID = some it)
    (hstat : it.status = (DetermineSpecStatus spec "").1)
    (hproj : MapSpecForComparison (some (convertDesignItemToSpec it)) =
             MapSpecForComparison (some spec)) :
    classifyRow lookup spec = .skippedRow := by
  have hnd : (it.status == DesignItemStatusDeleted) = false := by
    rw [hstat]; exact determineSpecStatus_fst_ne_deleted spec ""
  simp only [classifyRow, hl, hnd, Bool.false_eq_true, if_false]
  simp [classifyLive, hproj, compareSpecs_self, hstat]

theorem classifyLive_valid_inv {s : Spec} {ex : Option DesignItem} {v : ValidatedSpec}
    (h : classifyLive s ex = .validRow v) : v.spec = s ∧ v.isValid = true := by
  cases ex
  all_goals
    simp only [classifyLive] at h
    split at h
    · exact absurd h (by simp)
    · split at h
      · exact absurd h (by simp)
      · injection h with h2
        subst h2
        exact ⟨rfl, rfl⟩

theorem classifyRow_valid_inv {lookup : String → Option DesignItem} {s : Spec}
    {v : ValidatedSpec} (h : classifyRow lookup s = .validRow v) :
    v.spec = s ∧ v.isValid = true := by
  unfold classifyRow at h
  split at h
  · split at h
    · exact absurd h (by simp)
    · exact classifyLive_valid_inv h
  · exact classifyLive_valid_inv h

theorem classifySpecs_mem_invalid {lookup : String → Option DesignItem} {specs : List Spec}
    {s : Spec} {v : ValidatedSpec} (hm : s ∈ specs)
    (h : classifyRow lookup s = .invalidRow v) :
    v ∈ (classifySpecs lookup specs).2 := by
  induction specs with
  | nil => cases hm
  | cons a rest ih =>
    rcases List.mem_cons.1 hm with rfl | hm2
    · unfold classifySpecs
      rw [h]
      simp
    · unfold classifySpecs
      rcases hr : classifyRow lookup a with _ | w | w <;> simp [ih hm2]

theorem classifySpecs_valid_inv {lookup : String → Option DesignItem} {specs : List Spec}
    {v : ValidatedSpec} (h : v ∈ (classifySpecs lookup specs).1) :
    ∃ s ∈ specs, classifyRow lookup s = .validRow v := by
  induction specs with
  | nil => cases h
  | cons a rest ih =>
    unfold classifySpecs at h
    rcases hr : classifyRow lookup a with _ | w | w <;> rw [hr] at h
    · obtain ⟨s, hs, hcr⟩ := ih h
      exact ⟨s, List.mem_cons_of_mem _ hs, hcr⟩
    · obtain ⟨s, hs, hcr⟩ := ih h
      exact ⟨s, List.mem_cons_of_mem _ hs, hcr⟩
    · rcases List.mem_cons.1 h with rfl | h2
      · exact ⟨a, List.mem_cons_self _ _, hr⟩
      · obtain ⟨s, hs, hcr⟩ := ih h2
        exact ⟨s, List.mem_cons_of_mem _ hs, hcr⟩

theorem classifySpecs_all_skip {lookup : String → Option DesignItem} {specs : List Spec}
    (h : ∀ s ∈ specs, classifyRow lookup s = .skippedRow) :
    classifySpecs lookup specs = ([], []) := by
  induction specs with
  | nil => rfl
  | cons a rest ih =>
    unfold classifySpecs
    rw [h a (List.mem_cons_self _ _), ih (fun s hs => h s (List.mem_cons_of_mem _ hs))]

end Momorph

namespace Momorph

/-! ### Linked-frame stage and pipeline structural lemmas -/ 

theorem isEmpty_false_of_mem {α : Type} {a : α} {l : List α} (h : a ∈ l) :
    l.isEmpty = false := by
  cases l
  · cases h
  · rfl

theorem linkedFrameStage_error {query : List String → Except Unit (List String)}
    (hq : ∀ ids, query ids = .error ()) (v i : List ValidatedSpec) :
    (linkedFrameStage query v i).valids = v ∧ (linkedFrameStage query v i).invalids = i := by
  simp only [linkedFrameStage]
  split
  · exact ⟨rfl, rfl⟩
  · rw [hq]
    exact ⟨rfl, rfl⟩

theorem linkedFrameStage_invalids_mono {query : List String → Except Unit (List String)}
    (v i : List ValidatedSpec) {w : ValidatedSpec} (hw : w ∈ i) :
    w ∈ (linkedFrameStage query v i).invalids := by
  simp only [linkedFrameStage]
  split
  · exact hw
  · split
    · exact hw
    · exact List.mem_append_left _ hw

theorem linkedFrameStage_valids_spec {query : List String → Except Unit (List String)}
    (v i : List ValidatedSpec) {w : ValidatedSpec}
    (hw : w ∈ (linkedFrameStage query v i).valids) :
    ∃ u ∈ v, w.spec = u.spec ∧ w.status = u.status := by
  simp only [linkedFrameStage] at hw
  split at hw
  · exact ⟨w, hw, rfl, rfl⟩
  · split at hw
    · exact ⟨w, hw, rfl, rfl⟩
    · have hw2 := List.mem_of_mem_filter hw
      obtain ⟨u, hu, hmap⟩ := List.mem_map.1 hw2
      split at hmap
      · exact ⟨u, hu, by rw [← hmap], by rw [← hmap]⟩
      · exact ⟨u, hu, by rw [← hmap], by rw [← hmap]⟩

theorem linkedFrameStage_queries (query : List String → Except Unit (List String))
    (v i : List ValidatedSpec) :
    (linkedFrameStage query v i).queries =
      if (v.filter (fun x => x.spec.linkedFrameID != "")).isEmpty then []
      else [dedup ((v.filter (fun x => x.spec.linkedFrameID != "")).map
              (fun x => x.spec.linkedFrameID))] := by
  simp only [linkedFrameStage]
  split
  · rfl
  · split <;> rfl

theorem linkedFrameStage_not_found {query : List String → Except Unit (List String)}
    {found : List String} (hq : ∀ ids, query ids = .ok found)
    (v i : List ValidatedSpec) {u : ValidatedSpec}
    (hu : u ∈ v) (hlf : u.spec.linkedFrameID ≠ "") (hv : u.isValid = true)
    (hnf : found.contains u.spec.linkedFrameID = false) :
    (∃ w ∈ (linkedFrameStage query v i).invalids, w.spec = u.spec ∧
        linkedFrameNotFoundMsg u.spec.linkedFrameID ∈ w.errors) ∧
    u ∉ (linkedFrameStage query v i).valids := by
  have hlfb : (u.spec.linkedFrameID != "") = true := by simpa using hlf
  have hcond : (u.spec.linkedFrameID != "" && u.isValid
      && !(found.contains u.spec.linkedFrameID)) = true := by
    rw [hlfb, hv, hnf]
    rfl
  have hwl : (v.filter (fun x => x.spec.linkedFrameID != "")).isEmpty = false :=
    isEmpty_false_of_mem (List.mem_filter.2 ⟨hu, hlfb⟩)
  simp only [linkedFrameStage]
  rw [if_neg (by simp [hwl])]
  rw [hq]
  constructor
  · refine ⟨_, List.mem_append_right _ (List.mem_filter.2 ⟨List.mem_map_of_mem _ hu, ?_⟩),
      ?_, ?_⟩
    · rw [if_pos hcond]
      rfl
    · rw [if_pos hcond]
    · rw [if_pos hcond]
      exact List.mem_append_right _ (List.mem_singleton_self _)
  · intro hmem
    have hin := List.mem_filter.1 hmem
    obtain ⟨t, ht, hmap⟩ := List.mem_map.1 hin.1
    split at hmap
    · rw [← hmap] at hv
      simp at hv
    · rename_i hc
      rw [hmap] at hc
      exact hc hcond

end Momorph

namespace Momorph

theorem nilIsEmpty {α : Type} {l : List α} (h : l.isEmpty = true) : l = [] := by
  cases l
  · rfl
  · cases h

theorem pipelineCore_validSpecs (frame : Frame) (lookup : String → Option DesignItem)
    (query : List String → Except Unit (List String))
    (upsertFn : List SpecPayload → Except Unit (List DesignItem))
    (userRes : Except Unit Int) (actor : String) (specs : List Spec) :
    (pipelineCore frame lookup query upsertFn userRes actor specs).validSpecs =
      (linkedFrameStage query (classifySpecs lookup specs).1
        (classifySpecs lookup specs).2).valids := by
  simp only [pipelineCore]
  by_cases h1 : (linkedFrameStage query (classifySpecs lookup specs).1
      (classifySpecs lookup specs).2).valids.isEmpty
  · rw [if_pos h1]
    by_cases h2 : (!(linkedFrameStage query (classifySpecs lookup specs).1
        (classifySpecs lookup specs).2).invalids.isEmpty) = true
    · rw [if_pos h2]
      exact (nilIsEmpty h1).symm
    · rw [if_neg h2]
      exact (nilIsEmpty h1).symm
  · rw [if_neg h1]
    rcases hu2 : upsertFn (buildUpsertItems lookup frame
      (linkedFrameStage query (classifySpecs lookup specs).1
        (classifySpecs lookup specs).2).valids) with e | savedItems <;> rfl

theorem pipelineCore_invalidSpecs (frame : Frame) (lookup : String → Option DesignItem)
    (query : List String → Except Unit (List String))
    (upsertFn : List SpecPayload → Except Unit (List DesignItem))
    (userRes : Except Unit Int) (actor : String) (specs : List Spec) :
    (pipelineCore frame lookup query upsertFn userRes actor specs).invalidSpecs =
      (linkedFrameStage query (classifySpecs lookup specs).1
        (classifySpecs lookup specs).2).invalids := by
  simp only [pipelineCore]
  by_cases h1 : (linkedFrameStage query (classifySpecs lookup specs).1
      (classifySpecs lookup specs).2).valids.isEmpty
  · rw [if_pos h1]
    by_cases h2 : (!(linkedFrameStage query (classifySpecs lookup specs).1
        (classifySpecs lookup specs).2).invalids.isEmpty) = true
    · rw [if_pos h2]
    · rw [if_neg h2]
      have h2b : (linkedFrameStage query (classifySpecs lookup specs).1
          (classifySpecs lookup specs).2).invalids.isEmpty = true := by
        simpa using h2
      exact (nilIsEmpty h2b).symm
  · rw [if_neg h1]
    rcases hu2 : upsertFn (buildUpsertItems lookup frame
      (linkedFrameStage query (classifySpecs lookup specs).1
        (classifySpecs lookup specs).2).valids) with e | savedItems <;> rfl

theorem pipelineCore_upsertItems (frame : Frame) (lookup : String → Option DesignItem)
    (query : List String → Except Unit (List String))
    (upsertFn : List SpecPayload → Except Unit (List DesignItem))
    (userRes : Except Unit Int) (actor : String) (specs : List Spec) :
    (pipelineCore frame lookup query upsertFn userRes actor specs).upsertItems =
      buildUpsertItems lookup frame
        (linkedFrameStage query (classifySpecs lookup specs).1
          (classifySpecs lookup specs).2).valids := by
  simp only [pipelineCore]
  by_cases h1 : (linkedFrameStage query (classifySpecs lookup specs).1
      (classifySpecs lookup specs).2).valids.isEmpty
  · rw [if_pos h1, nilIsEmpty h1]
    by_cases h2 : (!(linkedFrameStage query (classifySpecs lookup specs).1
        (classifySpecs lookup specs).2).invalids.isEmpty) = true
    · rw [if_pos h2]
      rfl
    · rw [if_neg h2]
      rfl
  · rw [if_neg h1]
    rcases hu2 : upsertFn (buildUpsertItems lookup frame
      (linkedFrameStage query (classifySpecs lookup specs).1
        (classifySpecs lookup specs).2).valids) with e | savedItems <;> rfl

theorem pipelineCore_queries (frame : Frame) (lookup : String → Option DesignItem)
    (query : List String → Except Unit (List String))
    (upsertFn : List SpecPayload → Except Unit (List DesignItem))
    (userRes : Except Unit Int) (actor : String) (specs : List Spec) :
    (pipelineCore frame lookup query upsertFn userRes actor specs).linkedQueries =
      (linkedFrameStage query (classifySpecs lookup specs).1
        (classifySpecs lookup specs).2).queries := by
  simp only [pipelineCore]
  by_cases h1 : (linkedFrameStage query (classifySpecs lookup specs).1
      (classifySpecs lookup specs).2).valids.isEmpty
  · rw [if_pos h1]
    by_cases h2 : (!(linkedFrameStage query (classifySpecs lookup specs).1
        (classifySpecs lookup specs).2).invalids.isEmpty) = true
    · rw [if_pos h2]
    · rw [if_neg h2]
  · rw [if_neg h1]
    rcases hu2 : upsertFn (buildUpsertItems lookup frame
      (linkedFrameStage query (classifySpecs lookup specs).1
        (classifySpecs lookup specs).2).valids) with e | savedItems <;> rfl

theorem pipelineCore_all_skip (frame : Frame) (lookup : String → Option DesignItem)
    (query : List String → Except Unit (List String))
    (upsertFn : List SpecPayload → Except Unit (List DesignItem))
    (userRes : Except Unit Int) (actor : String) (specs : List Spec)
    (h : classifySpecs lookup specs = ([], [])) :
    pipelineCore frame lookup query upsertFn userRes actor specs =
      { status := .skipped, message := "No changes detected" } := by
  have hls : linkedFrameStage query [] [] = ⟨[], [], []⟩ := rfl
  simp [pipelineCore, h, hls]

theorem uploadSpecsPipeline_unfold {client : ClientModel} {frame : Frame}
    {items : List DesignItem} (actor : String) (specs : List Spec)
    (hframe : client.frame = .ok frame)
    (hdesign : (frame.status == "design") = false)
    (hspecs : specs.isEmpty = false)
    (hids : ((specs.map (fun s => s.nodeLinkID)).filter (fun s => s != "")).isEmpty = false)
    (hfetch : client.fetchItems = .ok items) :
    uploadSpecsPipeline client actor specs =
      pipelineCore frame (buildExistingMap items) client.linkedQuery
        client.upsert client.user actor specs := by
  unfold uploadSpecsPipeline
  rw [hframe]
  simp only [hspecs, hdesign, hids, hfetch, Bool.false_eq_true, if_false]

end Momorph

namespace Momorph

/-! ### Deduplication lemmas -/ 

theorem dedup_aux (xs : List String) (acc : List String) :
    (∀ x, x ∈ xs.foldl (fun acc x => if acc.contains x then acc else acc ++ [x]) acc ↔
      x ∈ acc ∨ x ∈ xs) ∧
    (acc.Nodup → (xs.foldl (fun acc x => if acc.contains x then acc else acc ++ [x]) acc).Nodup) := by
  induction xs generalizing acc with
  | nil => simp
  | cons a rest ih =>
    constructor
    · intro x
      simp only [List.foldl_cons]
      by_cases h : acc.contains a
      · rw [if_pos h]
        rw [(ih acc).1 x]
        constructor
        · rintro (hx | hx)
          · exact Or.inl hx
          · exact Or.inr (List.mem_cons_of_mem _ hx)
        · rintro (hx | hx)
          · exact Or.inl hx
          · rcases List.mem_cons.1 hx with rfl | hx2
            · exact Or.inl (List.mem_of_elem_eq_true h)
            · exact Or.inr hx2
      · rw [if_neg h]
        rw [(ih (acc ++ [a])).1 x]
        simp [List.mem_cons, or_assoc, or_comm, or_left_comm]
    · intro hnd
      simp only [List.foldl_cons]
      by_cases h : acc.contains a
      · rw [if_pos h]
        exact (ih acc).2 hnd
      · rw [if_neg h]
        refine (ih (acc ++ [a])).2 ?_
        refine List.Nodup.append hnd (List.nodup_singleton a) ?_
        intro x hx hx2
        rcases List.mem_singleton.1 hx2 with rfl
        exact h (List.elem_eq_true_of_mem hx)

theorem mem_dedup (xs : List String) (x : String) : x ∈ dedup xs ↔ x ∈ xs := by
  unfold dedup
  rw [(dedup_aux xs []).1 x]
  simp

theorem dedup_nodup (xs : List String) : (dedup xs).Nodup :=
  (dedup_aux xs []).2 List.nodup_nil

end Momorph

namespace Momorph

/-! ### Orchestrator helper lemmas -/

theorem mem_buildUpsertItems {lookup : String → Option DesignItem} {frame : Frame}
    {valids : List ValidatedSpec} {p : SpecPayload}
    (hp : p ∈ buildUpsertItems lookup frame valids) :
    ∃ v ∈ valids, p.nodeLinkID = v.spec.nodeLinkID := by
  obtain ⟨v, hv, heq⟩ := List.mem_map.1 hp
  exact ⟨v, hv, by rw [← heq]; rfl⟩

theorem classify_valid_isValid {lookup : String → Option DesignItem} {specs : List Spec}
    {v : ValidatedSpec} (h : v ∈ (classifySpecs lookup specs).1) : v.isValid = true := by
  obtain ⟨s, _, hrow⟩ := classifySpecs_valid_inv h
  exact (classifyRow_valid_inv hrow).2

/-! ### Orchestrator claim theorems -/

/-- Claim C6 counterexample: with the batched fetch of existing remote
records failing, the orchestrator does NOT abort — the run completes
with a success outcome and one upsert is attempted, refuting the claim
that no upsert happens and the file fails. -/
theorem c6_fetch_failure_counterexample :
    (uploadSpecsPipeline clientFetchFail "actor" [specToggle]).status = UploadStatus.success ∧
    (uploadSpecsPipeline clientFetchFail "actor" [specToggle]).upsertItems.length = 1 ∧
    UploadStatus.success ≠ UploadStatus.failed := by
  refine ⟨rfl, rfl, by decide⟩

/-- Claim C6 (amended): a failed batched fetch of existing records is
only logged; the run continues exactly as if the remote store had no
matching records (every row is then treated as new), and upserts still
happen. -/
theorem c6_fetch_failure_continues_as_empty (client : ClientModel) (actor : String)
    (specs : List Spec) :
    uploadSpecsPipeline { client with fetchItems := .error () } actor specs =
      uploadSpecsPipeline { client with fetchItems := .ok [] } actor specs := rfl

/-- Claim C3 counterexample: a row whose `buttonType` is set while its
type is not `button` is re-written on every run.  The second run of the
unchanged file against the remote state produced by the first run still
performs one upsert and one revision insert, refuting idempotence. -/
theorem c3_idempotence_counterexample :
    runToggle2.upsertItems.length = 1 ∧ runToggle2.revisions.length = 1 := by
  constructor <;> rfl

/-- Claim C3 (amended): the second run is a no-op exactly under the
round-trip condition: when every row's existing remote record carries
the row's determined status and an identical comparison projection
(which the first run guarantees only when the payload transformer
suppressed none of the row's set fields), every row is detected as
unchanged and skipped: the run ends `skipped` with zero upserts and
zero revisions. -/
theorem c3_second_run_skips_when_projection_preserved (client : ClientModel) (actor : String)
    (specs : List Spec) (frame : Frame) (items : List DesignItem)
    (hframe : client.frame = .ok frame) (hdesign : (frame.status == "design") = false)
    (hspecs : specs.isEmpty = false)
    (hids : ((specs.map (fun s => s.nodeLinkID)).filter (fun s => s != "")).isEmpty = false)
    (hfetch : client.fetchItems = .ok items)
    (hmatch : ∀ spec ∈ specs, ∃ it, buildExistingMap items spec.nodeLinkID = some it ∧
        it.status = (DetermineSpecStatus spec "").1 ∧
        MapSpecForComparison (some (convertDesignItemToSpec it)) =
          MapSpecForComparison (some spec)) :
    (uploadSpecsPipeline client actor specs).status = UploadStatus.skipped ∧
    (uploadSpecsPipeline client actor specs).upsertItems = [] ∧
    (uploadSpecsPipeline client actor specs).revisions = [] := by
  rw [uploadSpecsPipeline_unfold actor specs hframe hdesign hspecs hids hfetch]
  have hcl : classifySpecs (buildExistingMap items) specs = ([], []) := by
    refine classifySpecs_all_skip ?_
    intro s hs
    obtain ⟨it, hl, hstat, hproj⟩ := hmatch s hs
    exact classifyRow_skip hl hstat hproj
  rw [pipelineCore_all_skip _ _ _ _ _ _ _ hcl]
  exact ⟨rfl, rfl, rfl⟩

/-- Witness for C3 (amended) at a row whose stored record round-trips
to the identical projection. -/
theorem c3_second_run_skips_when_projection_preserved_witness :
    (uploadSpecsPipeline clientRound "actor" [specRound]).status = UploadStatus.skipped ∧
    (uploadSpecsPipeline clientRound "actor" [specRound]).upsertItems = [] ∧
    (uploadSpecsPipeline clientRound "actor" [specRound]).revisions = [] :=
  c3_second_run_skips_when_projection_preserved clientRound "actor" [specRound] frameFix
    [itemRound] rfl rfl rfl (by decide) rfl
    (by
      intro spec hs
      rcases List.mem_singleton.1 hs with rfl
      exact ⟨itemRound, by decide, by decide, by decide⟩)

/-- Claim C7: a row whose existing remote record has status `deleted`
is always classified invalid with the fixed deletion message, and no
payload in the upsert batch carries its key, regardless of the row's
own content or change status. -/
theorem c7_deleted_rows_never_upserted (client : ClientModel) (actor : String)
    (specs : List Spec) (frame : Frame) (items : List DesignItem) (spec : Spec)
    (it : DesignItem)
    (hframe : client.frame = .ok frame) (hdesign : (frame.status == "design") = false)
    (hfetch : client.fetchItems = .ok items)
    (hmem : spec ∈ specs) (hnid : spec.nodeLinkID ≠ "")
    (hlook : buildExistingMap items spec.nodeLinkID = some it)
    (hdel : it.status = DesignItemStatusDeleted) :
    (∃ v ∈ (uploadSpecsPipeline client actor specs).invalidSpecs,
       v.spec = spec ∧ v.errors = [deletedItemMsg]) ∧
    ∀ p ∈ (uploadSpecsPipeline client actor specs).upsertItems,
      p.nodeLinkID ≠ spec.nodeLinkID := by
  have hspecs : specs.isEmpty = false := isEmpty_false_of_mem hmem
  have hids : ((specs.map (fun s => s.nodeLinkID)).filter (fun s => s != "")).isEmpty = false := by
    refine isEmpty_false_of_mem
      (List.mem_filter.2 ⟨List.mem_map_of_mem _ hmem, by simpa using hnid⟩)
  rw [uploadSpecsPipeline_unfold actor specs hframe hdesign hspecs hids hfetch]
  have hrow := classifyRow_deleted hlook hdel
  constructor
  · have hinv := classifySpecs_mem_invalid hmem hrow
    rw [pipelineCore_invalidSpecs]
    exact ⟨_, linkedFrameStage_invalids_mono _ _ hinv, rfl, rfl⟩
  · intro p hp heq
    rw [pipelineCore_upsertItems] at hp
    obtain ⟨w, hw, hpid⟩ := mem_buildUpsertItems hp
    obtain ⟨u, hu, hwspec, _⟩ := linkedFrameStage_valids_spec _ _ hw
    obtain ⟨s, hsmem, hsrow⟩ := classifySpecs_valid_inv hu
    obtain ⟨husp, _⟩ := classifyRow_valid_inv hsrow
    have hsid : s.nodeLinkID = spec.nodeLinkID := by
      rw [← husp, ← hwspec, ← hpid, heq]
    have hlook2 : buildExistingMap items s.nodeLinkID = some it := by
      rw [hsid]; exact hlook
    have hdrow := classifyRow_deleted hlook2 hdel
    rw [hdrow] at hsrow
    cases hsrow

/-- Witness for C7 at a concrete deleted remote record. -/
theorem c7_deleted_rows_never_upserted_witness :
    (∃ v ∈ (uploadSpecsPipeline clientDeleted "actor" [specToggle]).invalidSpecs,
       v.spec = specToggle ∧ v.errors = [deletedItemMsg]) ∧
    ∀ p ∈ (uploadSpecsPipeline clientDeleted "actor" [specToggle]).upsertItems,
      p.nodeLinkID ≠ specToggle.nodeLinkID :=
  c7_deleted_rows_never_upserted clientDeleted "actor" [specToggle] frameFix
    [itemDeleted] specToggle itemDeleted rfl rfl rfl
    (List.mem_singleton_self _) (by decide) (by decide) rfl

/-- Claim C10: when the linked-frame existence query fails, the check
is silently skipped — no spec is marked invalid for an unresolved
reference, the valid and invalid sets are exactly the classification
output, and the whole valid set proceeds to the upsert batch. -/
theorem c10_linked_query_error_skips_check (client : ClientModel) (actor : String)
    (specs : List Spec) (frame : Frame) (items : List DesignItem)
    (hframe : client.frame = .ok frame) (hdesign : (frame.status == "design") = false)
    (hspecs : specs.isEmpty = false)
    (hids : ((specs.map (fun s => s.nodeLinkID)).filter (fun s => s != "")).isEmpty = false)
    (hfetch : client.fetchItems = .ok items)
    (hq : ∀ ids, client.linkedQuery ids = .error ()) :
    (uploadSpecsPipeline client actor specs).validSpecs =
      (classifySpecs (buildExistingMap items) specs).1 ∧
    (uploadSpecsPipeline client actor specs).invalidSpecs =
      (classifySpecs (buildExistingMap items) specs).2 ∧
    (uploadSpecsPipeline client actor specs).upsertItems =
      buildUpsertItems (buildExistingMap items) frame
        (classifySpecs (buildExistingMap items) specs).1 := by
  rw [uploadSpecsPipeline_unfold actor specs hframe hdesign hspecs hids hfetch]
  obtain ⟨he1, he2⟩ := linkedFrameStage_error hq
    (classifySpecs (buildExistingMap items) specs).1
    (classifySpecs (buildExistingMap items) specs).2
  refine ⟨?_, ?_, ?_⟩
  · rw [pipelineCore_validSpecs, he1]
  · rw [pipelineCore_invalidSpecs, he2]
  · rw [pipelineCore_upsertItems, he1]

/-- Witness for C10 at a concrete failing linked-frame query. -/
theorem c10_linked_query_error_skips_check_witness :
    (uploadSpecsPipeline clientLinkedErr "actor" [specLinked]).validSpecs =
      (classifySpecs (buildExistingMap []) [specLinked]).1 ∧
    (uploadSpecsPipeline clientLinkedErr "actor" [specLinked]).invalidSpecs =
      (classifySpecs (buildExistingMap []) [specLinked]).2 ∧
    (uploadSpecsPipeline clientLinkedErr "actor" [specLinked]).upsertItems =
      buildUpsertItems (buildExistingMap []) frameFix
        (classifySpecs (buildExistingMap []) [specLinked]).1 :=
  c10_linked_query_error_skips_check clientLinkedErr "actor" [specLinked] frameFix []
    rfl rfl rfl (by decide) rfl (fun _ => rfl)

/-- Claim C8: the linked-frame check issues exactly one batched query
over the deduplicated set of non-empty linked-frame ids of the valid
specs (no query when the set is empty), and when the query succeeds,
every valid spec whose id is not returned is marked invalid with a
violation naming the id and is excluded from the writable set; the
upsert batch is built exactly from the remaining valid specs. -/
theorem c8_linked_frame_batch_check (client : ClientModel) (actor : String)
    (specs : List Spec) (frame : Frame) (items : List DesignItem) (found : List String)
    (hframe : client.frame = .ok frame) (hdesign : (frame.status == "design") = false)
    (hspecs : specs.isEmpty = false)
    (hids : ((specs.map (fun s => s.nodeLinkID)).filter (fun s => s != "")).isEmpty = false)
    (hfetch : client.fetchItems = .ok items)
    (hq : ∀ ids, client.linkedQuery ids = .ok found) :
    (∀ q ∈ (uploadSpecsPipeline client actor specs).linkedQueries,
        q.Nodup ∧ ∀ x, (x ∈ q ↔ x ≠ "" ∧
          ∃ v ∈ (classifySpecs (buildExistingMap items) specs).1,
            v.spec.linkedFrameID = x)) ∧
    ((∃ v ∈ (classifySpecs (buildExistingMap items) specs).1, v.spec.linkedFrameID ≠ "") →
        ∃ q, (uploadSpecsPipeline client actor specs).linkedQueries = [q]) ∧
    ((∀ v ∈ (classifySpecs (buildExistingMap items) specs).1, v.spec.linkedFrameID = "") →
        (uploadSpecsPipeline client actor specs).linkedQueries = []) ∧
    (∀ v ∈ (classifySpecs (buildExistingMap items) specs).1,
      v.spec.linkedFrameID ≠ "" → found.contains v.spec.linkedFrameID = false →
        (∃ w ∈ (uploadSpecsPipeline client actor specs).invalidSpecs,
            w.spec = v.spec ∧ linkedFrameNotFoundMsg v.spec.linkedFrameID ∈ w.errors) ∧
        v ∉ (uploadSpecsPipeline client actor specs).validSpecs) ∧
    (uploadSpecsPipeline client actor specs).upsertItems =
      buildUpsertItems (buildExistingMap items) frame
        (uploadSpecsPipeline client actor specs).validSpecs := by
  rw [uploadSpecsPipeline_unfold actor specs hframe hdesign hspecs hids hfetch]
  refine ⟨?_, ?_, ?_, ?_, ?_⟩
  · intro q hqm
    rw [pipelineCore_queries, linkedFrameStage_queries] at hqm
    by_cases hemp : (((classifySpecs (buildExistingMap items) specs).1).filter
        (fun x => x.spec.linkedFrameID != "")).isEmpty
    · rw [if_pos hemp] at hqm
      cases hqm
    · rw [if_neg hemp] at hqm
      rcases List.mem_singleton.1 hqm with rfl
      refine ⟨dedup_nodup _, ?_⟩
      intro x
      rw [mem_dedup]
      constructor
      · intro hx
        obtain ⟨u, hu, hux⟩ := List.mem_map.1 hx
        have hu2 := List.mem_filter.1 hu
        refine ⟨?_, u, hu2.1, hux⟩
        rw [← hux]
        simpa using hu2.2
      · rintro ⟨hne, u, hu, hux⟩
        refine List.mem_map.2 ⟨u, List.mem_filter.2 ⟨hu, ?_⟩, hux⟩
        rw [hux]
        simpa using hne
  · rintro ⟨v, hv, hvne⟩
    rw [pipelineCore_queries, linkedFrameStage_queries]
    have hemp : (((classifySpecs (buildExistingMap items) specs).1).filter
        (fun x => x.spec.linkedFrameID != "")).isEmpty = false :=
      isEmpty_false_of_mem (List.mem_filter.2 ⟨hv, by simpa using hvne⟩)
    rw [if_neg (by simp [hemp])]
    exact ⟨_, rfl⟩
  · intro hall
    rw [pipelineCore_queries, linkedFrameStage_queries]
    have hfe : ((classifySpecs (buildExistingMap items) specs).1).filter
        (fun x => x.spec.linkedFrameID != "") = [] := by
      rw [List.filter_eq_nil_iff]
      intro v hv
      simp [hall v hv]
    rw [hfe]
    rfl
  · intro v hv hvne hnf
    have hvalid := classify_valid_isValid hv
    obtain ⟨hinv, hnotval⟩ := linkedFrameStage_not_found hq
      (classifySpecs (buildExistingMap items) specs).1
      (classifySpecs (buildExistingMap items) specs).2 hv hvne hvalid hnf
    constructor
    · rw [pipelineCore_invalidSpecs]
      exact hinv
    · rw [pipelineCore_validSpecs]
      exact hnotval
  · rw [pipelineCore_upsertItems, pipelineCore_validSpecs]

/-- Witness for C8 at a concrete run whose linked-frame query returns
an empty result. -/
theorem c8_linked_frame_batch_check_witness :
    (∀ q ∈ (uploadSpecsPipeline clientLinkedMiss "actor" [specLinked]).linkedQueries,
        q.Nodup ∧ ∀ x, (x ∈ q ↔ x ≠ "" ∧
          ∃ v ∈ (classifySpecs (buildExistingMap []) [specLinked]).1,
            v.spec.linkedFrameID = x)) ∧
    ((∃ v ∈ (classifySpecs (buildExistingMap []) [specLinked]).1,
        v.spec.linkedFrameID ≠ "") →
        ∃ q, (uploadSpecsPipeline clientLinkedMiss "actor" [specLinked]).linkedQueries = [q]) ∧
    ((∀ v ∈ (classifySpecs (buildExistingMap []) [specLinked]).1,
        v.spec.linkedFrameID = "") →
        (uploadSpecsPipeline clientLinkedMiss "actor" [specLinked]).linkedQueries = []) ∧
    (∀ v ∈ (classifySpecs (buildExistingMap []) [specLinked]).1,
      v.spec.linkedFrameID ≠ "" →
        (List.contains [] v.spec.linkedFrameID) = false →
        (∃ w ∈ (uploadSpecsPipeline clientLinkedMiss "actor" [specLinked]).invalidSpecs,
            w.spec = v.spec ∧ linkedFrameNotFoundMsg v.spec.linkedFrameID ∈ w.errors) ∧
        v ∉ (uploadSpecsPipeline clientLinkedMiss "actor" [specLinked]).validSpecs) ∧
    (uploadSpecsPipeline clientLinkedMiss "actor" [specLinked]).upsertItems =
      buildUpsertItems (buildExistingMap []) frameFix
        (uploadSpecsPipeline clientLinkedMiss "actor" [specLinked]).validSpecs :=
  c8_linked_frame_batch_check clientLinkedMiss "actor" [specLinked] frameFix [] []
    rfl rfl rfl (by decide) rfl (fun _ => rfl)

end Momorph
